import Mathlib

/-!
Verification of the positioning/interpolation engine of the
`react-native-anchor-carousel` widget (src/carousel.js).

JavaScript numbers are modelled as rationals (ℚ); item indices are
modelled as integers (ℤ); the item data sequence is a `List`.
All definitions are transcribed from `src/carousel.js`, keeping the
source's function names (including the source's spelling `Pont`).
-/

/-- Claim-relevant part of the carousel configuration, from the props of
`Carousel` (src/carousel.js lines 66-96).  `dataLength` is
`data ? data.length : 0`; it is carried here because the geometry
helpers close over it. -/
structure CarouselConfig where
  containerWidth : ℚ
  itemWidth : ℚ
  separatorWidth : ℚ
  minScrollDistance : ℚ
  inActiveScale : ℚ
  inActiveOpacity : ℚ
  inverted : Bool
  dataLength : ℕ
deriving Repr, DecidableEq

/-- `const halfContainerWidth = containerWidth / 2` (line 92). -/
def halfContainerWidth (cfg : CarouselConfig) : ℚ :=
  cfg.containerWidth / 2

/-- `const halfItemWidth = itemWidth / 2` (line 93). -/
def halfItemWidth (cfg : CarouselConfig) : ℚ :=
  cfg.itemWidth / 2

/-- `getItemTotalMarginBothSide` (lines 158-161). -/
def getItemTotalMarginBothSide (cfg : CarouselConfig) : ℚ :=
  let compensatorOfSeparatorByScaleEffect := (1 - cfg.inActiveScale) * cfg.itemWidth
  cfg.separatorWidth - compensatorOfSeparatorByScaleEffect / 2

/-- `isFirstItem` (lines 108-110). -/
def isFirstItem (index : ℤ) : Prop :=
  index = 0

instance (index : ℤ) : Decidable (isFirstItem index) :=
  inferInstanceAs (Decidable (index = 0))

/-- `isLastItem` (lines 104-106). -/
def isLastItem (cfg : CarouselConfig) (index : ℤ) : Prop :=
  index = (cfg.dataLength : ℤ) - 1

instance (cfg : CarouselConfig) (index : ℤ) : Decidable (isLastItem cfg index) :=
  inferInstanceAs (Decidable (index = (cfg.dataLength : ℤ) - 1))

/-- `getItemOffset` (lines 163-168). -/
def getItemOffset (cfg : CarouselConfig) (index : ℤ) : ℚ :=
  index * (cfg.itemWidth + getItemTotalMarginBothSide cfg) -
    (halfContainerWidth cfg - halfItemWidth cfg)

/-- `getAnimatedOffset` (lines 170-178). -/
def getAnimatedOffset (cfg : CarouselConfig) (index : ℤ) : ℚ :=
  if isFirstItem index then halfItemWidth cfg
  else if isLastItem cfg index then cfg.containerWidth - halfItemWidth cfg
  else halfContainerWidth cfg

/-- `getMidPontInterpolate` (lines 180-186). -/
def getMidPontInterpolate (cfg : CarouselConfig) (index : ℤ) (animatedOffset : ℚ) : ℚ :=
  index * (cfg.itemWidth + getItemTotalMarginBothSide cfg) +
    halfItemWidth cfg - animatedOffset

/-- `getStartPontInterpolate` (lines 187-199). -/
def getStartPontInterpolate (cfg : CarouselConfig) (index : ℤ) (midPoint : ℚ) : ℚ :=
  if index = 1 then 0
  else if isLastItem cfg index then
    ((cfg.dataLength : ℚ) - 2) * (cfg.itemWidth + getItemTotalMarginBothSide cfg) +
      halfItemWidth cfg - halfContainerWidth cfg
  else midPoint - cfg.itemWidth - getItemTotalMarginBothSide cfg

/-- `getEndPointInterpolate` (lines 201-215). -/
def getEndPointInterpolate (cfg : CarouselConfig) (index : ℤ) (midPoint : ℚ) : ℚ :=
  if isFirstItem index then
    cfg.itemWidth + getItemTotalMarginBothSide cfg + halfItemWidth cfg -
      halfContainerWidth cfg
  else if index = (cfg.dataLength : ℤ) - 2 then
    ((cfg.dataLength : ℚ) - 1) * (cfg.itemWidth + getItemTotalMarginBothSide cfg) +
      cfg.itemWidth - cfg.containerWidth
  else midPoint + cfg.itemWidth + getItemTotalMarginBothSide cfg

/-- The margin style object returned by `getItemMarginStyle`:
exactly one of `marginLeft`, `marginRight`, `marginHorizontal` is set. -/
inductive MarginStyle where
  | marginLeft (value : ℚ)
  | marginRight (value : ℚ)
  | marginHorizontal (value : ℚ)
deriving Repr, DecidableEq

/-- `getItemMarginStyle` (lines 217-230). -/
def getItemMarginStyle (cfg : CarouselConfig) (index : ℤ) : MarginStyle :=
  let marginSingleItemSide := getItemTotalMarginBothSide cfg / 2
  if isFirstItem index then
    if cfg.inverted then MarginStyle.marginLeft (marginSingleItemSide / 2)
    else MarginStyle.marginRight (marginSingleItemSide / 2)
  else if isLastItem cfg index then
    if cfg.inverted then MarginStyle.marginRight (marginSingleItemSide / 2)
    else MarginStyle.marginLeft (marginSingleItemSide / 2)
  else MarginStyle.marginHorizontal marginSingleItemSide

/-- Modelled from the spec: `interpolate` of react-native-reanimated with
`Extrapolate.CLAMP` on the three input nodes `[startPoint, midPoint, endPoint]`
and output nodes `[lo, hi, lo]` is not part of this repository; §4.2 of the
spec describes it as clamped piecewise-linear interpolation over the ordered
node triple, pinned to the output node at each input node and clamped to the
outer output nodes outside `[startPoint, endPoint]`. -/
def interpolateClamp3 (x startPoint midPoint endPoint lo hi : ℚ) : ℚ :=
  if x ≤ startPoint then lo
  else if x ≤ midPoint then lo + (x - startPoint) / (midPoint - startPoint) * (hi - lo)
  else if x ≤ endPoint then hi + (x - midPoint) / (endPoint - midPoint) * (lo - hi)
  else lo

/-- The interpolated value computed in `Item` (lines 34-39):
scale `inActiveScale` at `startPoint`, `1` at `midPoint`, `inActiveScale`
at `endPoint`, clamped. -/
def itemScale (scroll startPoint midPoint endPoint inActiveScale : ℚ) : ℚ :=
  interpolateClamp3 scroll startPoint midPoint endPoint inActiveScale 1

/-- The animated style produced by `Item` (lines 41-48): the single
interpolated value drives both the transform scale and the opacity. -/
structure ItemVisual where
  scale : ℚ
  opacity : ℚ
deriving Repr, DecidableEq

/-- `Item`'s `reanimatedStyle` (lines 32-48) as a function of the props
passed to it. -/
def itemReanimatedStyle (scroll startPoint midPoint endPoint inActiveScale : ℚ) :
    ItemVisual :=
  let xOffset := itemScale scroll startPoint midPoint endPoint inActiveScale
  { scale := xOffset, opacity := xOffset }

/-- The `midPoint` wired in `renderItemContainer` (lines 233-234). -/
def midPoint (cfg : CarouselConfig) (index : ℤ) : ℚ :=
  getMidPontInterpolate cfg index (getAnimatedOffset cfg index)

/-- The `startPoint` wired in `renderItemContainer` (line 235). -/
def startPoint (cfg : CarouselConfig) (index : ℤ) : ℚ :=
  getStartPontInterpolate cfg index (midPoint cfg index)

/-- The `endPoint` wired in `renderItemContainer` (line 236). -/
def endPoint (cfg : CarouselConfig) (index : ℤ) : ℚ :=
  getEndPointInterpolate cfg index (midPoint cfg index)

/-- `renderItemContainer` (lines 232-253), restricted to the visual output
(scale and opacity) of the wrapped item at a given live scroll offset.
Note the `Item` element receives `inActiveScale` but not `inActiveOpacity`
(lines 240-249). -/
def renderItemContainer (cfg : CarouselConfig) (index : ℤ) (scroll : ℚ) : ItemVisual :=
  itemReanimatedStyle scroll (startPoint cfg index) (midPoint cfg index)
    (endPoint cfg index) cfg.inActiveScale

/-- Observable effects issued by the controller:
`onScrollEndDrag` is the user callback fired at the top of
`handleOnScrollEndDrag` (line 141); `onScrollEnd` is the user callback fired
in `scrollToIndex` (line 124); `deferredScrollToOffset` is the physical
`scrollToOffset` command that `scrollToIndex` wraps in a zero-delay
`setTimeout` (lines 126-132), so it executes one scheduling tick later. -/
inductive CarouselEvent (α : Type) where
  | onScrollEndDrag
  | onScrollEnd (item : α) (index : ℤ)
  | deferredScrollToOffset (offset : ℚ) (animated : Bool)
deriving Repr, DecidableEq

/-- The controller's mutable state: `scrollXRef` (line 90),
`scrollXBeginRef` (line 91) and `currentIndexRef` (line 89). -/
structure ScrollState where
  scrollX : ℚ
  scrollXBegin : ℚ
  currentIndex : ℤ
deriving Repr, DecidableEq

/-- `scrollToIndex` (lines 120-133): out-of-range indices return without
any effect; in range, the `onScrollEnd` callback fires with
`(data[index], index)`, `currentIndexRef` is updated, and the physical
scroll to `getItemOffset(index)` is enqueued behind a zero-delay
`setTimeout`.  The returned event list is in issue order. -/
def scrollToIndex {α : Type} (cfg : CarouselConfig) (data : List α)
    (st : ScrollState) (index : ℤ) : ScrollState × List (CarouselEvent α) :=
  if h : index < 0 ∨ (data.length : ℤ) ≤ index then (st, [])
  else
    have hlt : index.toNat < data.length := by omega
    ({ st with currentIndex := index },
     [CarouselEvent.onScrollEnd (data.get ⟨index.toNat, hlt⟩) index,
      CarouselEvent.deferredScrollToOffset (getItemOffset cfg index) true])

/-- `handleOnScrollEndDrag` (lines 140-156). -/
def handleOnScrollEndDrag {α : Type} (cfg : CarouselConfig) (data : List α)
    (st : ScrollState) : ScrollState × List (CarouselEvent α) :=
  if st.scrollX < 0 then (st, [CarouselEvent.onScrollEndDrag])
  else
    let scrollDistance := st.scrollX - st.scrollXBegin
    let st1 : ScrollState := { st with scrollXBegin := 0 }
    let next :=
      if |scrollDistance| < cfg.minScrollDistance then
        scrollToIndex cfg data st1 st.currentIndex
      else if scrollDistance < 0 then
        scrollToIndex cfg data st1 (st.currentIndex - 1)
      else
        scrollToIndex cfg data st1 (st.currentIndex + 1)
    (next.1, CarouselEvent.onScrollEndDrag :: next.2)

/-- Spec-side formula for the total margin (spec §3):
`totalMargin = separatorWidth − (1 − inActiveScale)·itemWidth / 2`. -/
def totalMarginSpec (cfg : CarouselConfig) : ℚ :=
  cfg.separatorWidth - (1 - cfg.inActiveScale) * cfg.itemWidth / 2

/-- Spec-side formula for the item offset (spec §4.1):
`offset(index) = index·(itemWidth + totalMargin) − (halfContainerWidth − halfItemWidth)`. -/
def offsetSpec (cfg : CarouselConfig) (index : ℤ) : ℚ :=
  index * (cfg.itemWidth + totalMarginSpec cfg) -
    (cfg.containerWidth / 2 - cfg.itemWidth / 2)

/-- Spec-side snap-target decision (spec §4.3), as a function of the drag
distance, the threshold and the current index. -/
def snapTargetSpec (scrollDistance minScrollDistance : ℚ) (currentIndex : ℤ) : ℤ :=
  if |scrollDistance| < minScrollDistance then currentIndex
  else if scrollDistance < 0 then currentIndex - 1
  else currentIndex + 1

/-- The concrete geometry configuration of the spec's worked example
(spec §8): containerWidth 300, itemWidth 270, separatorWidth 10,
inActiveScale 0.8.  The remaining fields take the source defaults
(minScrollDistance 5, inActiveOpacity 0.8, inverted false) and a
data length of 7. -/
def exampleConfig : CarouselConfig :=
  { containerWidth := 300
    itemWidth := 270
    separatorWidth := 10
    minScrollDistance := 5
    inActiveScale := 4/5
    inActiveOpacity := 4/5
    inverted := false
    dataLength := 7 }

/-- The snap-decision worked example of the spec uses dataLength 5. -/
def snapExampleConfig : CarouselConfig :=
  { exampleConfig with dataLength := 5 }

/-- A concrete five-item data sequence for the worked examples. -/
def exampleData : List ℚ :=
  [10, 11, 12, 13, 14]

/-- A configuration with a negative separator width, making
itemWidth + totalMargin negative: itemWidth 10, separatorWidth -10,
inActiveScale 0.8 give totalMargin = -11. -/
def degenerateConfig : CarouselConfig :=
  { containerWidth := 300
    itemWidth := 10
    separatorWidth := -10
    minScrollDistance := 5
    inActiveScale := 4/5
    inActiveOpacity := 4/5
    inverted := false
    dataLength := 7 }

/-- Claim C1: for every configuration and index, getItemOffset equals the
spec formula index·(itemWidth + totalMargin) − (halfContainerWidth −
halfItemWidth) with totalMargin = separatorWidth − (1 − inActiveScale)·
itemWidth/2, and on the worked example (containerWidth 300, itemWidth 270,
separatorWidth 10, inActiveScale 0.8) totalMargin = −17 and
offset(1) = 238. -/
theorem getItemOffset_matches_spec :
    (∀ (cfg : CarouselConfig) (index : ℤ),
        getItemOffset cfg index = offsetSpec cfg index) ∧
    getItemTotalMarginBothSide exampleConfig = -17 ∧
    getItemOffset exampleConfig 1 = 238 := by
  refine ⟨fun _ _ => rfl, ?_, ?_⟩ <;>
    norm_num [getItemOffset, getItemTotalMarginBothSide, halfContainerWidth,
      halfItemWidth, exampleConfig]

/-- Claim C2: for ordered breakpoints start < mid < end, the clamped
piecewise-linear item value equals exactly 1 at scroll = mid, and equals
exactly inActiveScale at every scroll ≤ start and every scroll ≥ end. -/
theorem itemScale_breakpoints (s sp mp ep : ℚ) (h1 : sp < mp) (h2 : mp < ep) :
    itemScale mp sp mp ep s = 1 ∧
    (∀ scroll, scroll ≤ sp → itemScale scroll sp mp ep s = s) ∧
    (∀ scroll, ep ≤ scroll → itemScale scroll sp mp ep s = s) := by
  have hms : mp - sp ≠ 0 := sub_ne_zero.mpr h1.ne'
  have hem : ep - mp ≠ 0 := sub_ne_zero.mpr h2.ne'
  unfold itemScale interpolateClamp3
  refine ⟨?_, ?_, ?_⟩
  · rw [if_neg (not_le.mpr h1), if_pos le_rfl, div_self hms]
    ring
  · intro scroll hs
    rw [if_pos hs]
  · intro scroll hs
    rw [if_neg (not_le.mpr (by linarith)), if_neg (not_le.mpr (by linarith))]
    rcases eq_or_lt_of_le hs with h | h
    · rw [if_pos h.ge, ← h, div_self hem]
      ring
    · rw [if_neg (not_le.mpr h)]

/-- Claim C2 witness: at breakpoints (0, 10, 20) with inActiveScale 0.8,
the value at mid is 1 and the value at −3 and at 25 is 0.8. -/
theorem itemScale_breakpoints_witness :
    itemScale 10 0 10 20 (4/5) = 1 ∧
    itemScale (-3) 0 10 20 (4/5) = 4/5 ∧
    itemScale 25 0 10 20 (4/5) = 4/5 := by
  obtain ⟨ha, hb, hc⟩ := itemScale_breakpoints (4/5) 0 10 20 (by norm_num) (by norm_num)
  exact ⟨ha, hb (-3) (by norm_num), hc 25 (by norm_num)⟩

/-- Claim C3: on drag-end with a non-negative live offset, the handler
resets the drag-begin offset and hands the spec's snap target — current
index if |distance| is below the threshold, otherwise one index down for a
negative distance and one up for a positive one — to scrollToIndex, after
firing the user's onScrollEndDrag callback. -/
theorem handleOnScrollEndDrag_snap (α : Type) (cfg : CarouselConfig)
    (data : List α) (st : ScrollState) (h : 0 ≤ st.scrollX) :
    handleOnScrollEndDrag cfg data st =
      ((scrollToIndex cfg data { st with scrollXBegin := 0 }
          (snapTargetSpec (st.scrollX - st.scrollXBegin) cfg.minScrollDistance
            st.currentIndex)).1,
       CarouselEvent.onScrollEndDrag ::
         (scrollToIndex cfg data { st with scrollXBegin := 0 }
            (snapTargetSpec (st.scrollX - st.scrollXBegin) cfg.minScrollDistance
              st.currentIndex)).2) := by
  simp only [handleOnScrollEndDrag, snapTargetSpec]
  rw [if_neg (not_lt.mpr h)]
  split_ifs <;> rfl

/-- Claim C3 witness: the spec's worked snap example — dragBeginOffset 100,
dragEndOffset 80, minScrollDistance 5, currentIndex 2, dataLength 5 —
settles on index 1. -/
theorem handleOnScrollEndDrag_snap_witness :
    (handleOnScrollEndDrag snapExampleConfig exampleData
        { scrollX := 80, scrollXBegin := 100, currentIndex := 2 }).1.currentIndex = 1 := by
  rw [handleOnScrollEndDrag_snap ℚ snapExampleConfig exampleData
    { scrollX := 80, scrollXBegin := 100, currentIndex := 2 } (by norm_num)]
  norm_num [snapTargetSpec, scrollToIndex, abs_lt, exampleData,
    snapExampleConfig, exampleConfig]

/-- Claim C4: for a target index inside [0, dataLength), scrollToIndex
fires the onScrollEnd callback with (data[target], target) first, updates
currentIndex to the target, and only then enqueues the physical scroll to
getItemOffset(target), wrapped in a zero-delay setTimeout so it runs one
scheduling tick later. -/
theorem scrollToIndex_in_range (α : Type) (cfg : CarouselConfig)
    (data : List α) (st : ScrollState) (index : ℤ)
    (h0 : 0 ≤ index) (hlt : index.toNat < data.length) :
    scrollToIndex cfg data st index =
      ({ st with currentIndex := index },
       [CarouselEvent.onScrollEnd (data.get ⟨index.toNat, hlt⟩) index,
        CarouselEvent.deferredScrollToOffset (getItemOffset cfg index) true]) := by
  unfold scrollToIndex
  rw [dif_neg (by omega)]

/-- Claim C4 witness: scrolling the five-item example to index 3 fires
onScrollEnd with item 13 and index 3, sets currentIndex to 3, and enqueues
the deferred scroll. -/
theorem scrollToIndex_in_range_witness :
    scrollToIndex snapExampleConfig exampleData
        { scrollX := 0, scrollXBegin := 0, currentIndex := 0 } 3 =
      ({ scrollX := 0, scrollXBegin := 0, currentIndex := 3 },
       [CarouselEvent.onScrollEnd ((13 : ℚ)) 3,
        CarouselEvent.deferredScrollToOffset
          (getItemOffset snapExampleConfig 3) true]) :=
  scrollToIndex_in_range ℚ snapExampleConfig exampleData
    { scrollX := 0, scrollXBegin := 0, currentIndex := 0 } 3
    (by norm_num) (by norm_num [exampleData])

/-- Claim C5: for a target index outside [0, dataLength), scrollToIndex is
a silent no-op: the state is returned unchanged and no callback or scroll
command is issued. -/
theorem scrollToIndex_out_of_range (α : Type) (cfg : CarouselConfig)
    (data : List α) (st : ScrollState) (index : ℤ)
    (h : index < 0 ∨ (data.length : ℤ) ≤ index) :
    scrollToIndex cfg data st index = (st, []) := by
  unfold scrollToIndex
  rw [dif_pos h]

/-- Claim C5 witness: on the five-item example, scrollToIndex(-1) and
scrollToIndex(5) both leave the state unchanged and issue nothing. -/
theorem scrollToIndex_out_of_range_witness :
    scrollToIndex snapExampleConfig exampleData
        { scrollX := 0, scrollXBegin := 0, currentIndex := 2 } (-1) =
      ({ scrollX := 0, scrollXBegin := 0, currentIndex := 2 }, []) ∧
    scrollToIndex snapExampleConfig exampleData
        { scrollX := 0, scrollXBegin := 0, currentIndex := 2 } 5 =
      ({ scrollX := 0, scrollXBegin := 0, currentIndex := 2 }, []) :=
  ⟨scrollToIndex_out_of_range ℚ snapExampleConfig exampleData
      { scrollX := 0, scrollXBegin := 0, currentIndex := 2 } (-1)
      (Or.inl (by norm_num)),
   scrollToIndex_out_of_range ℚ snapExampleConfig exampleData
      { scrollX := 0, scrollXBegin := 0, currentIndex := 2 } 5
      (Or.inr (by norm_num [exampleData]))⟩

/-- Claim C6 counterexample: with containerWidth 300, itemWidth 10,
separatorWidth −10, inActiveScale 0.8 and dataLength 7 (a configuration
with itemWidth + totalMargin = −1 < 0), index 3 is interior (not 0, not 1,
not 6, not 5) yet its breakpoints are (−147, −148, −149), so
start ≤ mid ≤ end fails. -/
theorem breakpoints_not_ordered_cex :
    (3 : ℤ) ≠ 0 ∧ (3 : ℤ) ≠ 1 ∧
    (3 : ℤ) ≠ (degenerateConfig.dataLength : ℤ) - 1 ∧
    (3 : ℤ) ≠ (degenerateConfig.dataLength : ℤ) - 2 ∧
    ¬ (startPoint degenerateConfig 3 ≤ midPoint degenerateConfig 3 ∧
       midPoint degenerateConfig 3 ≤ endPoint degenerateConfig 3) := by
  refine ⟨by norm_num [degenerateConfig], by norm_num [degenerateConfig],
    by norm_num [degenerateConfig], by norm_num [degenerateConfig], ?_⟩
  norm_num [startPoint, midPoint, endPoint, getStartPontInterpolate,
    getMidPontInterpolate, getEndPointInterpolate, getAnimatedOffset,
    isFirstItem, isLastItem, getItemTotalMarginBothSide, halfContainerWidth,
    halfItemWidth, degenerateConfig]

/-- Claim C6 (amended with the hypothesis 0 ≤ itemWidth + totalMargin,
which the counterexample shows is needed): for every configuration with
itemWidth + totalMargin ≥ 0 and every interior index (not first, not last,
not 1, not dataLength − 2), start(index) ≤ mid(index) ≤ end(index). -/
theorem breakpoints_ordered (cfg : CarouselConfig) (index : ℤ)
    (hm : 0 ≤ cfg.itemWidth + getItemTotalMarginBothSide cfg)
    (h0 : index ≠ 0) (h1 : index ≠ 1)
    (hlast : index ≠ (cfg.dataLength : ℤ) - 1)
    (hpen : index ≠ (cfg.dataLength : ℤ) - 2) :
    startPoint cfg index ≤ midPoint cfg index ∧
    midPoint cfg index ≤ endPoint cfg index := by
  have hF : ¬ isFirstItem index := h0
  have hL : ¬ isLastItem cfg index := hlast
  unfold startPoint endPoint getStartPontInterpolate getEndPointInterpolate
  rw [if_neg h1, if_neg hL, if_neg hF, if_neg hpen]
  constructor <;> linarith

/-- Claim C6 witness: on the worked-example configuration (totalMargin
−17, itemWidth 270, dataLength 7), interior index 3 has ordered
breakpoints. -/
theorem breakpoints_ordered_witness :
    startPoint exampleConfig 3 ≤ midPoint exampleConfig 3 ∧
    midPoint exampleConfig 3 ≤ endPoint exampleConfig 3 :=
  breakpoints_ordered exampleConfig 3
    (by norm_num [getItemTotalMarginBothSide, exampleConfig])
    (by norm_num) (by norm_num)
    (by norm_num [exampleConfig]) (by norm_num [exampleConfig])

/-- Claim C7: changing only inActiveOpacity never changes any item's
rendered output, and for every configuration, index and scroll offset the
rendered opacity equals the rendered scale (one interpolated value drives
both). -/
theorem inActiveOpacity_never_affects_output :
    (∀ (cfg : CarouselConfig) (o : ℚ) (index : ℤ) (scroll : ℚ),
        renderItemContainer { cfg with inActiveOpacity := o } index scroll =
          renderItemContainer cfg index scroll) ∧
    (∀ (cfg : CarouselConfig) (index : ℤ) (scroll : ℚ),
        (renderItemContainer cfg index scroll).opacity =
          (renderItemContainer cfg index scroll).scale) :=
  ⟨fun _ _ _ _ => rfl, fun _ _ _ => rfl⟩

/-- Claim C8: on drag-end with a negative live scroll offset, the handler
returns right after the user's onScrollEndDrag callback: the state
(including currentIndex and the recorded drag-begin offset) is unchanged
and no snap, callback or scroll command is issued. -/
theorem handleOnScrollEndDrag_negative (α : Type) (cfg : CarouselConfig)
    (data : List α) (st : ScrollState) (h : st.scrollX < 0) :
    handleOnScrollEndDrag cfg data st = (st, [CarouselEvent.onScrollEndDrag]) := by
  unfold handleOnScrollEndDrag
  rw [if_pos h]

/-- Claim C8 witness: a drag ending at live offset −4 leaves the state
untouched. -/
theorem handleOnScrollEndDrag_negative_witness :
    handleOnScrollEndDrag snapExampleConfig exampleData
        { scrollX := -4, scrollXBegin := 100, currentIndex := 2 } =
      ({ scrollX := -4, scrollXBegin := 100, currentIndex := 2 },
       [CarouselEvent.onScrollEndDrag]) :=
  handleOnScrollEndDrag_negative ℚ snapExampleConfig exampleData
    { scrollX := -4, scrollXBegin := 100, currentIndex := 2 } (by norm_num)

/-- Claim C9: when itemWidth + totalMargin > 0, getItemOffset is strictly
increasing on the indices of [0, dataLength). -/
theorem getItemOffset_strictMono (cfg : CarouselConfig) (i j : ℤ)
    (hm : 0 < cfg.itemWidth + getItemTotalMarginBothSide cfg)
    (h0 : 0 ≤ i) (hij : i < j) (hj : j < (cfg.dataLength : ℤ)) :
    getItemOffset cfg i < getItemOffset cfg j := by
  unfold getItemOffset
  have hq : (i : ℚ) < (j : ℚ) := by exact_mod_cast hij
  have := mul_lt_mul_of_pos_right hq hm
  linarith

/-- Claim C9 witness: on the worked-example configuration
(itemWidth + totalMargin = 253 > 0), offset(0) < offset(1). -/
theorem getItemOffset_strictMono_witness :
    getItemOffset exampleConfig 0 < getItemOffset exampleConfig 1 :=
  getItemOffset_strictMono exampleConfig 0 1
    (by norm_num [getItemTotalMarginBothSide, exampleConfig])
    (by norm_num) (by norm_num) (by norm_num [exampleConfig])

/-- Claim C10: with dataLength ≥ 2, every interior item gets a horizontal
margin of totalMargin/2 on each side, while the first and the last item get
a single-side margin of totalMargin/4 — half of one interior side — and the
carrying side swaps between trailing and leading when inverted is set. -/
theorem getItemMarginStyle_sides (cfg : CarouselConfig)
    (h2 : 2 ≤ cfg.dataLength) :
    (∀ index : ℤ, 0 < index → index < (cfg.dataLength : ℤ) - 1 →
        getItemMarginStyle cfg index =
          MarginStyle.marginHorizontal (getItemTotalMarginBothSide cfg / 2)) ∧
    getItemMarginStyle cfg 0 =
      (if cfg.inverted then
        MarginStyle.marginLeft (getItemTotalMarginBothSide cfg / 4)
       else MarginStyle.marginRight (getItemTotalMarginBothSide cfg / 4)) ∧
    getItemMarginStyle cfg ((cfg.dataLength : ℤ) - 1) =
      (if cfg.inverted then
        MarginStyle.marginRight (getItemTotalMarginBothSide cfg / 4)
       else MarginStyle.marginLeft (getItemTotalMarginBothSide cfg / 4)) := by
  have h4 : getItemTotalMarginBothSide cfg / 2 / 2 =
      getItemTotalMarginBothSide cfg / 4 := by ring
  refine ⟨?_, ?_, ?_⟩
  · intro index hpos hlt
    have hF : ¬ isFirstItem index := by unfold isFirstItem; omega
    have hL : ¬ isLastItem cfg index := by unfold isLastItem; omega
    simp only [getItemMarginStyle]
    rw [if_neg hF, if_neg hL]
  · have hF : isFirstItem 0 := rfl
    simp only [getItemMarginStyle]
    rw [if_pos hF, h4]
  · have hF : ¬ isFirstItem ((cfg.dataLength : ℤ) - 1) := by
      unfold isFirstItem; omega
    have hL : isLastItem cfg ((cfg.dataLength : ℤ) - 1) := rfl
    simp only [getItemMarginStyle]
    rw [if_neg hF, if_pos hL, h4]

/-- Claim C10 witness: on the worked-example configuration (dataLength 7,
totalMargin −17, inverted false), interior index 3 gets marginHorizontal
−17/2, the first item gets marginRight −17/4 and the last item gets
marginLeft −17/4. -/
theorem getItemMarginStyle_sides_witness :
    getItemMarginStyle exampleConfig 3 =
      MarginStyle.marginHorizontal (getItemTotalMarginBothSide exampleConfig / 2) ∧
    getItemMarginStyle exampleConfig 0 =
      (if exampleConfig.inverted then
        MarginStyle.marginLeft (getItemTotalMarginBothSide exampleConfig / 4)
       else MarginStyle.marginRight (getItemTotalMarginBothSide exampleConfig / 4)) ∧
    getItemMarginStyle exampleConfig ((exampleConfig.dataLength : ℤ) - 1) =
      (if exampleConfig.inverted then
        MarginStyle.marginRight (getItemTotalMarginBothSide exampleConfig / 4)
       else MarginStyle.marginLeft (getItemTotalMarginBothSide exampleConfig / 4)) := by
  obtain ⟨hint, hfirst, hlast⟩ :=
    getItemMarginStyle_sides exampleConfig (by norm_num [exampleConfig])
  exact ⟨hint 3 (by norm_num) (by norm_num [exampleConfig]), hfirst, hlast⟩
